import Mathlib

/-!
Verification of the subscription-lifecycle logic of the mealplan application.

The development shallowly embeds the TypeScript route handlers:

* `calculateEndDate` — the plan-type → end-date switch shared by
  `verify-payment`, `razorpay-webhook` and the status route;
* the Prisma-backed data model (`Profile`, `Subscription`, `DB`) together
  with the query/update/upsert combinators the handlers use;
* the route handlers themselves: profile provisioning, subscription
  creation, the status query, payment verification (redirect and webhook
  flavours), the signed webhook receiver, cancellation and resumption.

External collaborators (the payment provider, the HMAC primitive, the JSON
parser and the id generator) are passed in as explicit inputs, so every
handler is a pure function from its inputs and the database state to a
response, a new database state and the effects sent to the provider.
-/

/-! ## Calendar model (JavaScript `Date` field arithmetic) -/

/-- A calendar date in the JavaScript convention: `month` is 0-based
(`getMonth`), `day` is 1-based (`getDate`).  Time of day is not modelled;
none of the verified claims depends on intra-day time. -/
structure Date where
  year : Nat
  month : Nat
  day : Nat
deriving DecidableEq, Repr

/-- Gregorian leap-year test, as JavaScript `Date` implements it. -/
def isLeap (y : Nat) : Bool :=
  decide (y % 4 = 0 ∧ (y % 100 ≠ 0 ∨ y % 400 = 0))

/-- Number of days in month `m` (0-based) of year `y`. -/
def daysInMonth (y : Nat) (m : Nat) : Nat :=
  if m = 1 then (if isLeap y then 29 else 28)
  else if m = 3 ∨ m = 5 ∨ m = 8 ∨ m = 10 then 30
  else 31

/-- Normalisation of an overflowing day-of-month, as performed by the
JavaScript `Date` setters: while the day exceeds the month length, roll
into the following month (and following year after December).  `fuel`
bounds the recursion; every caller passes the day itself, which strictly
dominates the number of possible steps because each step removes at least
28 days. -/
def normDay (fuel : Nat) (y : Nat) (m : Nat) (d : Nat) : Date :=
  match fuel with
  | 0 => ⟨y, m, d⟩
  | fuel + 1 =>
    if d > daysInMonth y m then
      if m = 11 then
        normDay fuel (y + 1) 0 (d - daysInMonth y m)
      else
        normDay fuel y (m + 1) (d - daysInMonth y m)
    else ⟨y, m, d⟩

/-- `endDate.setDate(now.getDate() + n)` on a copy of `now`. -/
def jsAddDays (dt : Date) (n : Nat) : Date :=
  normDay (dt.day + n) dt.year dt.month (dt.day + n)

/-- `endDate.setMonth(now.getMonth() + 1)` on a copy of `now`: bump the
0-based month, carrying into the year, then normalise the day. -/
def jsAddOneMonth (dt : Date) : Date :=
  if dt.month + 1 ≥ 12 then
    normDay dt.day (dt.year + 1) (dt.month + 1 - 12) dt.day
  else
    normDay dt.day dt.year (dt.month + 1) dt.day

/-- `endDate.setFullYear(now.getFullYear() + 1)` on a copy of `now`. -/
def jsAddOneYear (dt : Date) : Date :=
  normDay dt.day (dt.year + 1) dt.month dt.day

/-- The `calculateEndDate` switch, identical in `verify-payment/route.ts`,
`razorpay-webhook/route.ts` and the status route: week → +7 days,
month → +1 month, year → +1 year, anything else → +1 month. -/
def calculateEndDate (planType : String) (now : Date) : Date :=
  if planType = "week" then jsAddDays now 7
  else if planType = "month" then jsAddOneMonth now
  else if planType = "year" then jsAddOneYear now
  else jsAddOneMonth now

/-- The `verify-payment` wrapper around the switch:
`planType?.toString() || "month"` maps a missing or empty plan type to
`"month"` before dispatching. -/
def calculateEndDateOpt (planType : Option String) (now : Date) : Date :=
  let planTypeStr :=
    match planType with
    | none => "month"
    | some s => if s = "" then "month" else s
  calculateEndDate planTypeStr now

/-! ### Day counting: linearising dates for the "+7 days" claim -/

/-- Number of leap years `k` with `0 ≤ k < y` (multiples of 4, minus
multiples of 100, plus multiples of 400). -/
def leapsBefore (y : Nat) : Nat :=
  (y + 3) / 4 - (y + 99) / 100 + (y + 399) / 400

/-- Days in the years `0, …, y-1`. -/
def daysBeforeYear (y : Nat) : Nat :=
  365 * y + leapsBefore y

/-- Days in the months of year `y` strictly before month `m` (0-based). -/
def daysBeforeMonth (y : Nat) (m : Nat) : Nat :=
  let l : Nat := if isLeap y then 1 else 0
  if m = 0 then 0
  else if m = 1 then 31
  else if m = 2 then 59 + l
  else if m = 3 then 90 + l
  else if m = 4 then 120 + l
  else if m = 5 then 151 + l
  else if m = 6 then 181 + l
  else if m = 7 then 212 + l
  else if m = 8 then 243 + l
  else if m = 9 then 273 + l
  else if m = 10 then 304 + l
  else 334 + l

/-- Linear day number of a date (days elapsed since day 1 of year 0,
plus one). -/
def toRataDie (dt : Date) : Nat :=
  daysBeforeYear dt.year + daysBeforeMonth dt.year dt.month + dt.day

set_option maxHeartbeats 1600000 in
theorem daysBeforeYear_succ (y : Nat) :
    daysBeforeYear (y + 1) = daysBeforeYear y + (if isLeap y then 366 else 365) := by
  simp only [daysBeforeYear, leapsBefore, isLeap, decide_eq_true_eq]
  split_ifs with hL <;> omega

theorem daysBeforeMonth_succ (y : Nat) (m : Nat) (h : m ≤ 10) :
    daysBeforeMonth y (m + 1) = daysBeforeMonth y m + daysInMonth y m := by
  rcases hb : isLeap y with _ | _ <;> interval_cases m <;>
    simp [daysBeforeMonth, daysInMonth, hb]

theorem daysBeforeMonth_last (y : Nat) :
    daysBeforeMonth y 11 + daysInMonth y 11 = (if isLeap y then 366 else 365) := by
  rcases hb : isLeap y with _ | _ <;> simp [daysBeforeMonth, daysInMonth, hb]

/-- Day-of-month normalisation preserves the linear day number. -/
theorem toRataDie_normDay (fuel : Nat) :
    ∀ y m d, m ≤ 11 →
      toRataDie (normDay fuel y m d) = daysBeforeYear y + daysBeforeMonth y m + d := by
  induction fuel with
  | zero => intro y m d _; rfl
  | succ fuel ih =>
    intro y m d hm
    simp only [normDay]
    by_cases hd : d > daysInMonth y m
    · simp only [hd, if_true]
      by_cases h11 : m = 11
      · subst h11
        simp only [if_true]
        rw [ih (y + 1) 0 (d - daysInMonth y 11) (by omega)]
        have hy := daysBeforeYear_succ y
        have hlast := daysBeforeMonth_last y
        have h0 : daysBeforeMonth (y + 1) 0 = 0 := by simp [daysBeforeMonth]
        rcases hb : isLeap y with _ | _ <;>
          simp only [hb, if_true, if_false, Bool.false_eq_true] at hy hlast <;>
          simp only [toRataDie, h0] <;> omega
      · simp only [h11, if_false]
        rw [ih y (m + 1) (d - daysInMonth y m) (by omega)]
        have := daysBeforeMonth_succ y m (by omega)
        omega
    · simp only [hd, if_false]
      rfl

/-- For a valid month, `jsAddDays` advances the linear day number by
exactly `n`. -/
theorem toRataDie_jsAddDays (dt : Date) (n : Nat) (hm : dt.month ≤ 11) :
    toRataDie (jsAddDays dt n) = toRataDie dt + n := by
  simp only [jsAddDays]
  rw [toRataDie_normDay _ _ _ _ hm]
  simp only [toRataDie]
  omega

/-! ### Formalisations of the spec's calendar phrases -/

/-- Modelled from the spec: "start date plus exactly 1 calendar month" —
advance the (0-based) month index by one, carrying into the year after
December, and normalise any day-of-month overflow into the following
month. -/
def specPlusOneCalendarMonth (dt : Date) : Date :=
  if dt.month = 11 then
    normDay dt.day (dt.year + 1) 0 dt.day
  else
    normDay dt.day dt.year (dt.month + 1) dt.day

/-- Modelled from the spec: "start date plus exactly 1 calendar year" —
advance the year by one, keeping month and day, normalising a Feb 29
overflow. -/
def specPlusOneCalendarYear (dt : Date) : Date :=
  normDay dt.day (dt.year + 1) dt.month dt.day

theorem jsAddOneMonth_eq_spec (dt : Date) (hm : dt.month ≤ 11) :
    jsAddOneMonth dt = specPlusOneCalendarMonth dt := by
  simp only [jsAddOneMonth, specPlusOneCalendarMonth]
  by_cases h : dt.month = 11
  · simp [h]
  · have : ¬ dt.month + 1 ≥ 12 := by omega
    simp [h, this]

/-! ## String helpers (JavaScript truthiness and `includes`) -/

/-- `pat` is a prefix of `txt` (character lists). -/
def charsHavePre : List Char → List Char → Bool
  | [], _ => true
  | _ :: _, [] => false
  | a :: as, b :: bs => a == b && charsHavePre as bs

/-- `pat` occurs somewhere inside `txt` (character lists). -/
def charsContain (pat : List Char) : List Char → Bool
  | [] => pat.isEmpty
  | c :: cs => charsHavePre pat (c :: cs) || charsContain pat cs

/-- JavaScript `s.includes(pat)`. -/
def strContains (s pat : String) : Bool :=
  charsContain pat.toList s.toList

/-- JavaScript `o || d` on an optional string: `undefined`, `null` and the
empty string are falsy. -/
def jsStrOr (o : Option String) (d : String) : String :=
  match o with
  | none => d
  | some s => if s = "" then d else s

/-- JavaScript `s || d` on a string: the empty string is falsy. -/
def jsStrOrS (s d : String) : String :=
  if s = "" then d else s

/-- JavaScript truthiness of an optional string. -/
def optTruthy (o : Option String) : Bool :=
  match o with
  | none => false
  | some s => s ≠ ""

/-! ## Data model (Prisma schema) -/

/-- The `Profile` model of `schema.prisma` (identity fields and timestamps
that no handler reads are omitted). -/
structure Profile where
  userId : String
  email : String
  subscriptionTier : Option String
  subscriptionActive : Bool
  stripeSubscriptionId : Option String
deriving DecidableEq, Repr

/-- The `Subscription` model of `schema.prisma`.  `createdAt` is kept as a
counter because the status route orders by it. -/
structure Subscription where
  id : String
  userId : String
  planId : String
  razorpaySubscriptionId : Option String
  razorpayPaymentId : Option String
  status : String
  planType : String
  startDate : Option Date
  endDate : Option Date
  isRecurring : Bool
  createdAt : Nat
deriving DecidableEq, Repr

/-- The relational store: the two tables. -/
structure DB where
  profiles : List Profile
  subscriptions : List Subscription
deriving DecidableEq, Repr

/-- Lexicographic order on dates; stands in for the timestamp comparison
behind Prisma's `gte`. -/
def dateLe (a b : Date) : Bool :=
  a.year < b.year ||
    (a.year == b.year &&
      (a.month < b.month || (a.month == b.month && a.day ≤ b.day)))

/-- Prisma `endDate: { gte: now }`: a `null` end date never satisfies the
comparison. -/
def endDateGe (e : Option Date) (now : Date) : Bool :=
  match e with
  | none => false
  | some d => dateLe now d

/-! ## Persistence combinators -/

/-- `findFirst` with `orderBy: { createdAt: 'desc' }`: among the rows
satisfying `p`, the one with the largest `createdAt` (first such row on
ties). -/
def mostRecentWhere (p : Subscription → Bool) (l : List Subscription) : Option Subscription :=
  (l.filter p).foldl
    (fun acc s =>
      match acc with
      | none => some s
      | some t => if s.createdAt > t.createdAt then some s else some t)
    none

/-- `profile.findUnique({ where: { userId } })`. -/
def findProfile (db : DB) (uid : String) : Option Profile :=
  db.profiles.find? (fun p => p.userId == uid)

/-- `profile.update({ where: { userId }, data })`: Prisma throws when the
row is absent, hence the `Option`. -/
def updateProfile (db : DB) (uid : String) (f : Profile → Profile) : Option DB :=
  if db.profiles.any (fun p => p.userId == uid) then
    some { db with
      profiles := db.profiles.map (fun p => if p.userId == uid then f p else p) }
  else
    none

/-- `subscription.update({ where: { id }, data })` for a row id obtained
from a preceding query. -/
def updateSubById (db : DB) (sid : String) (f : Subscription → Subscription) : DB :=
  { db with
    subscriptions := db.subscriptions.map (fun s => if s.id == sid then f s else s) }

/-- `subscription.updateMany({ where: { razorpaySubscriptionId } })`:
updates every matching row, never throws. -/
def updateSubsByRzp (db : DB) (rid : String) (f : Subscription → Subscription) : DB :=
  { db with
    subscriptions := db.subscriptions.map
      (fun s => if s.razorpaySubscriptionId == some rid then f s else s) }

/-- `subscription.update({ where: { razorpaySubscriptionId } })`: throws
when the row is absent. -/
def updateSubByRzp (db : DB) (rid : String) (f : Subscription → Subscription) : Option DB :=
  if db.subscriptions.any (fun s => s.razorpaySubscriptionId == some rid) then
    some (updateSubsByRzp db rid f)
  else
    none

/-- `subscription.findUnique / findFirst ({ where: { razorpaySubscriptionId } })`. -/
def findSubByRzp (db : DB) (rid : String) : Option Subscription :=
  db.subscriptions.find? (fun s => s.razorpaySubscriptionId == some rid)

/-- `subscription.upsert({ where: { razorpaySubscriptionId }, update, create })`. -/
def upsertSubByRzp (db : DB) (rid : String) (upd : Subscription → Subscription)
    (mk : Subscription) : DB :=
  if db.subscriptions.any (fun s => s.razorpaySubscriptionId == some rid) then
    updateSubsByRzp db rid upd
  else
    { db with subscriptions := db.subscriptions ++ [mk] }

/-- `subscription.create`. -/
def createSubRow (db : DB) (row : Subscription) : DB :=
  { db with subscriptions := db.subscriptions ++ [row] }

/-- All subscription rows of one user (in table order). -/
def userSubs (db : DB) (uid : String) : List Subscription :=
  db.subscriptions.filter (fun s => s.userId == uid)

/-! ## Payment-provider objects -/

/-- The `notes` metadata attached to a provider subscription. -/
structure ProviderNotes where
  userId : Option String
  planType : Option String
  email : Option String
deriving DecidableEq, Repr

/-- A provider-side subscription object as the handlers read it. -/
structure ProviderSub where
  id : String
  plan_id : String
  status : String
  short_url : Option String
  total_count : Nat
  notes : ProviderNotes
deriving DecidableEq, Repr

/-- The argument of `razorpay.subscriptions.create`. -/
structure ProviderCreateReq where
  plan_id : String
  total_count : Nat
  customer_notify : Nat
  notes : ProviderNotes
deriving DecidableEq, Repr

/-! ## Profile provisioning (`create-profile/route.ts`) -/

/-- The authenticated identity as read from the identity provider. -/
structure ClerkUser where
  id : String
  emailAddresses : List String
deriving DecidableEq, Repr

/-- Responses of the create-profile handler. -/
inductive ProfileResp
  | userNotFound
  | noEmail
  | alreadyExists
  | created
deriving DecidableEq, Repr

/-- The `POST` handler of `create-profile/route.ts`. -/
def ensureProfile (db : DB) (clerkUser : Option ClerkUser) : ProfileResp × DB :=
  match clerkUser with
  | none => (.userNotFound, db)
  | some u =>
    let email := (u.emailAddresses.head?).getD ""
    if email = "" then (.noEmail, db)
    else
      match findProfile db u.id with
      | some _ => (.alreadyExists, db)
      | none =>
        (.created,
         { db with
             profiles := db.profiles ++
               [{ userId := u.id
                  email := email
                  subscriptionTier := none
                  subscriptionActive := false
                  stripeSubscriptionId := none }] })

/-! ## Subscription creation (`POST` of the subscribe route) -/

/-- Responses of the create-subscription handler. -/
inductive CreateSubResp
  | missingFields
  | invalidPlanType
  | invalidPriceId
  | alreadyActive (currentPlan : String) (endDate : Option Date)
  | ok (subscriptionId planId status : String) (url : Option String) (callbackUrl : String)
deriving DecidableEq, Repr

/-- The active-subscription precondition query:
`findFirst({ where: { userId, status: "active", endDate: { gte: now } } })`. -/
def findActiveFuture (db : DB) (uid : String) (now : Date) : Option Subscription :=
  db.subscriptions.find? (fun s =>
    s.userId == uid && s.status == "active" && endDateGe s.endDate now)

/-- The `POST` create-subscription handler.  `getPriceIdFromType` (the
plan-to-price mapping from `lib/plans`, outside the embedded sources) and
the provider's create call are inputs; `freshId`/`freshAt` stand for the
generated row id and creation timestamp.  The third component of the
result is the request sent to the provider, if any. -/
def createSubscription (db : DB) (planType userId email : String) (now : Date)
    (getPriceIdFromType : String → Option String)
    (providerCreate : ProviderCreateReq → ProviderSub)
    (origin : String) (freshId : String) (freshAt : Nat) :
    CreateSubResp × DB × Option ProviderCreateReq :=
  if planType = "" ∨ userId = "" ∨ email = "" then (.missingFields, db, none)
  else if ¬ (planType = "week" ∨ planType = "month" ∨ planType = "year") then
    (.invalidPlanType, db, none)
  else
    match getPriceIdFromType planType with
    | none => (.invalidPriceId, db, none)
    | some priceId =>
      if priceId = "" then (.invalidPriceId, db, none)
      else
        match findActiveFuture db userId now with
        | some act => (.alreadyActive act.planType act.endDate, db, none)
        | none =>
          let req : ProviderCreateReq :=
            { plan_id := priceId
              total_count := 1
              customer_notify := 1
              notes :=
                { userId := some userId
                  planType := some planType
                  email := some email } }
          let sub := providerCreate req
          let callbackUrl := origin ++ "/subscribe?sessionId=" ++ sub.id
          let row : Subscription :=
            { id := freshId
              userId := userId
              planId := sub.plan_id
              razorpaySubscriptionId := some sub.id
              razorpayPaymentId := none
              status := sub.status
              planType := planType
              startDate := none
              endDate := none
              isRecurring := false
              createdAt := freshAt }
          (.ok sub.id sub.plan_id sub.status sub.short_url callbackUrl,
           createSubRow db row, some req)

/-! ## Subscription status query (`GET` of the status route) -/

/-- Responses of the status handler.  The promoted-active response of the
source carries no `endDate` field; it is modelled by `none` there. -/
inductive StatusResp
  | missingUserId
  | activeResp (tier : String) (subId : Option String) (endDate : Option Date)
      (isRecurring : Bool)
  | pendingResp (subId : Option String) (planType : String)
  | inactive
deriving DecidableEq, Repr

/-- Step 1 query: most recent row with status in {active, completed} and a
future end date. -/
def activeQuery (db : DB) (uid : String) (now : Date) : Option Subscription :=
  mostRecentWhere
    (fun s => s.userId == uid &&
      (s.status == "active" || s.status == "completed") && endDateGe s.endDate now)
    db.subscriptions

/-- Step 2 query: most recent row with status in
{created, authenticated, pending}. -/
def pendingQuery (db : DB) (uid : String) : Option Subscription :=
  mostRecentWhere
    (fun s => s.userId == uid &&
      (s.status == "created" || s.status == "authenticated" || s.status == "pending"))
    db.subscriptions

/-- The `GET` status handler.  `providerFetch` is the outcome of the
provider re-fetch for the pending-family row: either the provider-reported
status or a thrown error. -/
def getStatus (db : DB) (uid : String) (now : Date)
    (providerFetch : Except String String) : StatusResp × DB :=
  if uid = "" then (.missingUserId, db)
  else
    match activeQuery db uid now with
    | some act => (.activeResp act.planType act.razorpaySubscriptionId act.endDate false, db)
    | none =>
      match pendingQuery db uid with
      | none => (.inactive, db)
      | some pend =>
        match providerFetch with
        | .error _ => (.inactive, db)
        | .ok st =>
          if st = "active" ∨ st = "completed" then
            let db1 := updateSubById db pend.id (fun s =>
              { s with
                  status := "active"
                  startDate := some now
                  endDate := some (calculateEndDate pend.planType now) })
            match updateProfile db1 uid (fun p =>
                { p with
                    subscriptionActive := true
                    subscriptionTier := some pend.planType }) with
            | some db2 =>
              (.activeResp pend.planType pend.razorpaySubscriptionId none pend.isRecurring,
               db2)
            | none => (.inactive, db1)
          else if st = "created" ∨ st = "authenticated" ∨ st = "pending" then
            (.pendingResp pend.razorpaySubscriptionId pend.planType, db)
          else
            (.inactive, updateSubById db pend.id (fun s => { s with status := st }))

/-! ## Payment verification (`verify-payment/route.ts`) -/

/-- Responses of the verify-payment handler (both flows). -/
inductive VerifyResp
  | subNotFound
  | noUserId
  | paymentPending (pendingSubscriptionId : String)
  | paymentNotCompleted (pendingSubscriptionId : String)
  | activated
  | subNotActive (status : String)
  | invalidSignature
  | webhookVerified
  | serverError (msg : String)
deriving DecidableEq, Repr

/-- The `update` record of the verification upsert: force the row active
and stamp the computed dates. -/
def verifyUpd (planType : String) (now : Date) : Subscription → Subscription :=
  fun s =>
    { s with
        status := "active"
        startDate := some now
        endDate := some (calculateEndDate planType now) }

/-- The `create` record of the verification upsert. -/
def verifyMk (freshId userId : String) (sub : ProviderSub) (planType : String)
    (now : Date) (freshAt : Nat) : Subscription :=
  { id := freshId
    userId := userId
    planId := sub.plan_id
    razorpaySubscriptionId := some sub.id
    razorpayPaymentId := none
    status := "active"
    planType := planType
    startDate := some now
    endDate := some (calculateEndDate planType now)
    isRecurring := false
    createdAt := freshAt }

/-- The profile `data` record of the verification flow. -/
def verifyProf (planType subId : String) : Profile → Profile :=
  fun p =>
    { p with
        subscriptionActive := true
        subscriptionTier := some (jsStrOrS planType "month")
        stripeSubscriptionId := some subId }

/-- The redirect flow (`sessionId`/`subscriptionId` present in the body).
`providerFetch` is the outcome of `razorpay.subscriptions.fetch`:
a thrown error, a missing object, or the provider subscription. -/
def verifyPaymentSession (db : DB) (sessionId : String)
    (providerFetch : Except String (Option ProviderSub)) (now : Date)
    (freshId : String) (freshAt : Nat) : VerifyResp × DB :=
  match providerFetch with
  | .error e => (.serverError e, db)
  | .ok none => (.subNotFound, db)
  | .ok (some sub) =>
    let dbsub := findSubByRzp db sessionId
    match sub.notes.userId with
    | none => (.noUserId, db)
    | some userId =>
      if userId = "" then (.noUserId, db)
      else
        let planType := jsStrOr sub.notes.planType "month"
        if sub.status = "created" ∨ sub.status = "authenticated" then
          (.paymentPending sub.id, db)
        else if sub.status = "cancelled" then
          (.paymentNotCompleted sub.id, db)
        else if (sub.status = "active" ∨ sub.status = "completed") ∧
            dbsub.all (fun r => r.status != "cancelled") then
          let db1 := upsertSubByRzp db sessionId (verifyUpd planType now)
            (verifyMk freshId userId sub planType now freshAt)
          match updateProfile db1 userId (verifyProf planType sub.id) with
          | some db2 => (.activated, db2)
          | none => (.serverError "profile record not found", db1)
        else
          (.subNotActive sub.status, db)

/-- The webhook-style flow of `verify-payment/route.ts` (no session id in
the body): the supplied `razorpay_signature` is compared against
HMAC-SHA256 of `"<payment_id>|<subscription_id>"`, not of the raw body,
and a mismatch yields HTTP 400.  `hmac secret message` is the digest
primitive. -/
def verifyPaymentWebhook (db : DB) (paymentId subscriptionId signature userId : String)
    (secret : String) (hmac : String → String → String)
    (providerFetch : Except String ProviderSub) (now : Date)
    (freshId : String) (freshAt : Nat) : VerifyResp × DB :=
  let generatedSignature := hmac secret (paymentId ++ "|" ++ subscriptionId)
  if generatedSignature ≠ signature then (.invalidSignature, db)
  else
    match providerFetch with
    | .error e => (.serverError e, db)
    | .ok sub =>
      let planType := jsStrOr sub.notes.planType "month"
      let db1 := upsertSubByRzp db subscriptionId
        (fun s =>
          { s with
              status := "active"
              razorpayPaymentId := some paymentId
              startDate := some now
              endDate := some (calculateEndDate planType now) })
        { id := freshId
          userId := userId
          planId := sub.plan_id
          razorpaySubscriptionId := some sub.id
          razorpayPaymentId := some paymentId
          status := "active"
          planType := planType
          startDate := some now
          endDate := some (calculateEndDate planType now)
          isRecurring := false
          createdAt := freshAt }
      match updateProfile db1 userId (fun p =>
          { p with
              subscriptionActive := true
              subscriptionTier := some (jsStrOrS planType "month")
              stripeSubscriptionId := some subscriptionId }) with
      | some db2 => (.webhookVerified, db2)
      | none => (.serverError "profile record not found", db1)

/-! ## Webhook receiver (`razorpay-webhook/route.ts`) -/

/-- The entity carried in a webhook payload. -/
structure WebhookEntity where
  id : String
  plan_id : String
  notes : ProviderNotes
  subscription_id : Option String
deriving DecidableEq, Repr

/-- A parsed webhook body: the event name and the optional
`payload.subscription` / `payload.payment` objects. -/
structure WebhookEvent where
  event : String
  subscription : Option WebhookEntity
  payment : Option WebhookEntity
deriving DecidableEq, Repr

/-- `webhookData.payload.subscription || webhookData.payload.payment`. -/
def webhookPayload (e : WebhookEvent) : Option WebhookEntity :=
  match e.subscription with
  | some x => some x
  | none => e.payment

/-- `handleSubscriptionActivated`: requires `userId`, `planType` and
`plan_id`; upserts the row to active with computed dates and activates the
profile.  Internal persistence errors are swallowed by the handler. -/
def handleSubscriptionActivated (db : DB) (e : WebhookEntity) (now : Date)
    (freshId : String) (freshAt : Nat) : DB :=
  match e.notes.userId, e.notes.planType with
  | some userId, some planType =>
    if userId = "" ∨ planType = "" ∨ e.plan_id = "" then db
    else
      let db1 := upsertSubByRzp db e.id
        (fun s =>
          { s with
              status := "active"
              startDate := some now
              endDate := some (calculateEndDate planType now) })
        { id := freshId
          userId := userId
          planId := e.plan_id
          razorpaySubscriptionId := some e.id
          razorpayPaymentId := none
          status := "active"
          planType := planType
          startDate := some now
          endDate := some (calculateEndDate planType now)
          isRecurring := false
          createdAt := freshAt }
      match updateProfile db1 userId (fun p =>
          { p with
              subscriptionActive := true
              subscriptionTier := some planType
              stripeSubscriptionId := some e.id }) with
      | some db2 => db2
      | none => db1
  | _, _ => db

/-- `handleSubscriptionPending`: upsert to status `pending`; the created
row carries no dates. -/
def handleSubscriptionPending (db : DB) (e : WebhookEntity)
    (freshId : String) (freshAt : Nat) : DB :=
  match e.notes.userId, e.notes.planType with
  | some userId, some planType =>
    if userId = "" ∨ planType = "" ∨ e.plan_id = "" then db
    else
      upsertSubByRzp db e.id
        (fun s => { s with status := "pending" })
        { id := freshId
          userId := userId
          planId := e.plan_id
          razorpaySubscriptionId := some e.id
          razorpayPaymentId := none
          status := "pending"
          planType := planType
          startDate := none
          endDate := none
          isRecurring := false
          createdAt := freshAt }
  | _, _ => db

/-- `handleSubscriptionHalted`: mark the row halted and deactivate the
profile. -/
def handleSubscriptionHalted (db : DB) (e : WebhookEntity) : DB :=
  match findSubByRzp db e.id with
  | none => db
  | some r =>
    let db1 := updateSubsByRzp db e.id (fun s => { s with status := "halted" })
    match updateProfile db1 r.userId (fun p => { p with subscriptionActive := false }) with
    | some db2 => db2
    | none => db1

/-- `handleSubscriptionCancelled`: mark the row cancelled and deactivate
the profile. -/
def handleSubscriptionCancelled (db : DB) (e : WebhookEntity) : DB :=
  match findSubByRzp db e.id with
  | none => db
  | some r =>
    let db1 := updateSubsByRzp db e.id (fun s => { s with status := "cancelled" })
    match updateProfile db1 r.userId (fun p => { p with subscriptionActive := false }) with
    | some db2 => db2
    | none => db1

/-- `handlePaymentCaptured`: record the payment reference and force the
status to active.  Neither `startDate` nor `endDate` is touched. -/
def handlePaymentCaptured (db : DB) (e : WebhookEntity) : DB :=
  match e.subscription_id with
  | none => db
  | some sid =>
    if sid = "" then db
    else
      updateSubsByRzp db sid (fun s =>
        { s with
            razorpayPaymentId := some e.id
            status := "active" })

/-- `handlePaymentFailed`: force the status to halted and deactivate the
profile of the row's owner. -/
def handlePaymentFailed (db : DB) (e : WebhookEntity) : DB :=
  match e.subscription_id with
  | none => db
  | some sid =>
    if sid = "" then db
    else
      let db1 := updateSubsByRzp db sid (fun s => { s with status := "halted" })
      match findSubByRzp db1 sid with
      | none => db1
      | some r =>
        match updateProfile db1 r.userId (fun p => { p with subscriptionActive := false }) with
        | some db2 => db2
        | none => db1

/-- Responses of the webhook receiver. -/
inductive WebhookResp
  | unauthorized
  | received
  | processingError (msg : String)
deriving DecidableEq, Repr

/-- The `POST` handler of `razorpay-webhook/route.ts`: verify the
header-supplied signature against HMAC-SHA256 of the raw body, then parse
and dispatch.  `parse` is the JSON parser (an input of the model); a
recognised event whose payload is absent makes the handler throw, hence
the 500 branch. -/
def razorpayWebhook (db : DB) (body signature secret : String)
    (hmac : String → String → String)
    (parse : String → Option WebhookEvent)
    (now : Date) (freshId : String) (freshAt : Nat) : WebhookResp × DB :=
  let expectedSignature := hmac secret body
  if expectedSignature ≠ signature then (.unauthorized, db)
  else
    match parse body with
    | none => (.processingError "parse failure", db)
    | some ev =>
      let payload := webhookPayload ev
      if ev.event = "subscription.activated" then
        match payload with
        | none => (.processingError "no payload", db)
        | some e => (.received, handleSubscriptionActivated db e now freshId freshAt)
      else if ev.event = "subscription.pending" then
        match payload with
        | none => (.processingError "no payload", db)
        | some e => (.received, handleSubscriptionPending db e freshId freshAt)
      else if ev.event = "subscription.halted" then
        match payload with
        | none => (.processingError "no payload", db)
        | some e => (.received, handleSubscriptionHalted db e)
      else if ev.event = "subscription.cancelled" then
        match payload with
        | none => (.processingError "no payload", db)
        | some e => (.received, handleSubscriptionCancelled db e)
      else if ev.event = "payment.captured" then
        match payload with
        | none => (.processingError "no payload", db)
        | some e => (.received, handlePaymentCaptured db e)
      else if ev.event = "payment.failed" then
        match payload with
        | none => (.processingError "no payload", db)
        | some e => (.received, handlePaymentFailed db e)
      else
        (.received, db)

/-! ## Cancellation (`cancel-subscription/route.ts`, cancel handler) -/

/-- Responses of the cancel handler.  `completedKeepAccess` is the
"Subscription is completed. Your access will remain until the end date."
success message; `cancelledOk` is "Subscription cancelled successfully". -/
inductive CancelResp
  | missingFields
  | notFound
  | completedKeepAccess
  | cancelledOk
  | serverError (msg : String)
deriving DecidableEq, Repr

/-- The cancel `POST` handler.  `providerFetch` is the outcome of the
status fetch (its errors are swallowed and the flow continues);
`providerCancel` is the outcome of `razorpay.subscriptions.cancel`, whose
error message is inspected for the words indicating an already-finalised
subscription. -/
def cancelSubscription (db : DB) (subscriptionId userId : String)
    (providerFetch : Except String String)
    (providerCancel : Except String Unit) : CancelResp × DB :=
  if subscriptionId = "" ∨ userId = "" then (.missingFields, db)
  else
    match db.subscriptions.find? (fun s =>
        s.razorpaySubscriptionId == some subscriptionId && s.userId == userId) with
    | none => (.notFound, db)
    | some sub =>
      let fetchShortCircuit : Option (CancelResp × DB) :=
        match providerFetch with
        | .error _ => none
        | .ok st =>
          if st = "completed" then
            let db1 := updateSubById db sub.id (fun s => { s with status := "cancelled" })
            match updateProfile db1 userId (fun p =>
                { p with
                    subscriptionActive := false
                    stripeSubscriptionId := none
                    subscriptionTier := none }) with
            | some db2 => some (.completedKeepAccess, db2)
            | none => some (.serverError "profile record not found", db1)
          else none
      match fetchShortCircuit with
      | some r => r
      | none =>
        match providerCancel with
        | .ok _ =>
          let db1 := updateSubById db sub.id (fun s => { s with status := "cancelled" })
          match updateProfile db1 userId (fun p =>
              { p with
                  subscriptionActive := false
                  stripeSubscriptionId := none
                  subscriptionTier := none }) with
          | some db2 => (.cancelledOk, db2)
          | none => (.serverError "profile record not found", db1)
        | .error msg =>
          if strContains msg "completed" || strContains msg "already been processed" then
            (.completedKeepAccess,
             updateSubById db sub.id (fun s => { s with status := "cancelled" }))
          else
            (.serverError msg, db)

/-! ## Resumption (`cancel-subscription/route.ts`, resume handler) -/

/-- Responses of the resume handler.  `cannotResume` is the 400 response
whose body carries a user-visible `message` ("… Cannot resume payment at
this time.") and the raw status, not an `error` key; `serverError` is the
500 error response. -/
inductive ResumeResp
  | missingFields
  | notFoundLocal
  | notFoundProvider
  | forbidden
  | alreadyActive (url : String)
  | newSubCreated (url : String) (callbackUrl : String) (subscriptionId : String)
  | resumeUrl (url : String) (callbackUrl : String)
  | cannotResume (status : String)
  | serverError (msg : String)
deriving DecidableEq, Repr

/-- The resume `POST` handler.  The third component of the result is the
create request sent to the provider, if any. -/
def resumePayment (db : DB) (subscriptionId userId : String)
    (providerFetch : Except String (Option ProviderSub))
    (providerCreate : ProviderCreateReq → ProviderSub)
    (origin : String) (freshId : String) (freshAt : Nat) :
    ResumeResp × DB × Option ProviderCreateReq :=
  if subscriptionId = "" ∨ userId = "" then (.missingFields, db, none)
  else
    match db.subscriptions.find? (fun s =>
        s.razorpaySubscriptionId == some subscriptionId && s.userId == userId) with
    | none => (.notFoundLocal, db, none)
    | some record =>
      match providerFetch with
      | .error e => (.serverError e, db, none)
      | .ok none => (.notFoundProvider, db, none)
      | .ok (some sub) =>
        if sub.notes.userId ≠ some userId then (.forbidden, db, none)
        else if sub.status = "active" then
          let db1 := updateSubById db record.id (fun s => { s with status := "active" })
          match updateProfile db1 userId (fun p =>
              { p with
                  subscriptionActive := true
                  subscriptionTier := some record.planType }) with
          | some db2 => (.alreadyActive "/mealplan", db2, none)
          | none => (.serverError "profile record not found", db1, none)
        else if sub.status = "cancelled" ∨ sub.status = "expired" then
          let planType := jsStrOr sub.notes.planType "month"
          let email := jsStrOr sub.notes.email ""
          let req : ProviderCreateReq :=
            { plan_id := sub.plan_id
              total_count := sub.total_count
              customer_notify := 1
              notes :=
                { userId := some userId
                  planType := some planType
                  email := some email } }
          let newSub := providerCreate req
          let row : Subscription :=
            { id := freshId
              userId := userId
              planId := sub.plan_id
              razorpaySubscriptionId := some newSub.id
              razorpayPaymentId := none
              status := newSub.status
              planType := planType
              startDate := none
              endDate := none
              isRecurring := newSub.total_count > 1 || newSub.total_count == 0
              createdAt := freshAt }
          let callbackUrl := origin ++ "/subscribe?sessionId=" ++ newSub.id
          (.newSubCreated (newSub.short_url.getD "") callbackUrl newSub.id,
           createSubRow db row, some req)
        else if sub.status = "created" ∨ sub.status = "authenticated" ∨
            sub.status = "pending" then
          let callbackUrl := origin ++ "/subscribe?sessionId=" ++ sub.id
          (.resumeUrl (sub.short_url.getD "") callbackUrl, db, none)
        else
          (.cannotResume sub.status, db, none)

/-! ## Claim C8: the end-date computation -/

/-- C8: for plan type `week` the computed end date is exactly 7 days after
the start date (the linear day number advances by 7); for `month` it is
the start date plus one calendar month; for `year` the start date plus one
calendar year; and every other plan type defaults to plus one calendar
month. -/
theorem claim_c8_calculateEndDate (pt : String) (now : Date) (hm : now.month ≤ 11) :
    (pt = "week" → toRataDie (calculateEndDate pt now) = toRataDie now + 7) ∧
    (pt = "month" → calculateEndDate pt now = specPlusOneCalendarMonth now) ∧
    (pt = "year" → calculateEndDate pt now = specPlusOneCalendarYear now) ∧
    (pt ≠ "week" → pt ≠ "month" → pt ≠ "year" →
      calculateEndDate pt now = specPlusOneCalendarMonth now) := by
  refine ⟨?_, ?_, ?_, ?_⟩
  · intro h
    subst h
    simp only [calculateEndDate, if_pos rfl]
    exact toRataDie_jsAddDays now 7 hm
  · intro h
    subst h
    simp only [calculateEndDate]
    norm_num
    exact jsAddOneMonth_eq_spec now hm
  · intro h
    subst h
    simp only [calculateEndDate]
    norm_num
    rfl
  · intro h1 h2 h3
    simp only [calculateEndDate, h1, h2, h3, if_false]
    exact jsAddOneMonth_eq_spec now hm

/-- Witness for C8 at concrete dates. -/
theorem claim_c8_witness :
    toRataDie (calculateEndDate "week" ⟨2024, 0, 26⟩) = toRataDie ⟨2024, 0, 26⟩ + 7 ∧
    calculateEndDate "month" ⟨2024, 0, 31⟩ = specPlusOneCalendarMonth ⟨2024, 0, 31⟩ ∧
    calculateEndDate "year" ⟨2024, 1, 29⟩ = specPlusOneCalendarYear ⟨2024, 1, 29⟩ ∧
    calculateEndDate "quarter" ⟨2023, 11, 30⟩ = specPlusOneCalendarMonth ⟨2023, 11, 30⟩ :=
  ⟨(claim_c8_calculateEndDate "week" ⟨2024, 0, 26⟩ (by decide)).1 rfl,
   (claim_c8_calculateEndDate "month" ⟨2024, 0, 31⟩ (by decide)).2.1 rfl,
   (claim_c8_calculateEndDate "year" ⟨2024, 1, 29⟩ (by decide)).2.2.1 rfl,
   (claim_c8_calculateEndDate "quarter" ⟨2023, 11, 30⟩ (by decide)).2.2.2
     (by decide) (by decide) (by decide)⟩

/-! ## Claim C9: profile provisioning is idempotent -/

/-- Number of Profile rows stored for one identity key. -/
def countProfiles (db : DB) (uid : String) : Nat :=
  (db.profiles.filter (fun p => p.userId == uid)).length

/-- C9: for an identity with an email and no existing Profile row, the
first `ensureProfile` call reports "created" and leaves exactly one
Profile row for the identity, created with subscription-inactive defaults;
the second call reports "already exists" and performs no mutation. -/
theorem claim_c9_ensureProfile (db : DB) (uid email : String)
    (hemail : email ≠ "") (habsent : findProfile db uid = none) :
    (ensureProfile db (some ⟨uid, [email]⟩)).1 = ProfileResp.created ∧
    countProfiles (ensureProfile db (some ⟨uid, [email]⟩)).2 uid = 1 ∧
    findProfile (ensureProfile db (some ⟨uid, [email]⟩)).2 uid =
      some ⟨uid, email, none, false, none⟩ ∧
    ensureProfile (ensureProfile db (some ⟨uid, [email]⟩)).2 (some ⟨uid, [email]⟩) =
      (ProfileResp.alreadyExists, (ensureProfile db (some ⟨uid, [email]⟩)).2) := by
  have habsent' : List.find? (fun p => p.userId == uid) db.profiles = none := habsent
  have hnone : ∀ x ∈ db.profiles, ¬ (x.userId == uid) = true :=
    List.find?_eq_none.mp habsent'
  have hfil : db.profiles.filter (fun p => p.userId == uid) = [] := by
    rw [List.filter_eq_nil_iff]
    exact hnone
  have h1 : ensureProfile db (some ⟨uid, [email]⟩) =
      (ProfileResp.created,
       { db with profiles := db.profiles ++ [⟨uid, email, none, false, none⟩] }) := by
    simp [ensureProfile, hemail, habsent]
  refine ⟨by rw [h1], ?_, ?_, ?_⟩
  · rw [h1]
    simp [countProfiles, List.filter_append, hfil]
  · rw [h1]
    simp [findProfile, List.find?_append, habsent']
  · rw [h1]
    simp [ensureProfile, hemail, findProfile, List.find?_append, habsent']

/-- Witness for C9 on an initially empty store. -/
theorem claim_c9_witness :
    (ensureProfile ⟨[], []⟩ (some ⟨"u1", ["a@b.c"]⟩)).1 = ProfileResp.created ∧
    countProfiles (ensureProfile ⟨[], []⟩ (some ⟨"u1", ["a@b.c"]⟩)).2 "u1" = 1 ∧
    findProfile (ensureProfile ⟨[], []⟩ (some ⟨"u1", ["a@b.c"]⟩)).2 "u1" =
      some ⟨"u1", "a@b.c", none, false, none⟩ ∧
    ensureProfile (ensureProfile ⟨[], []⟩ (some ⟨"u1", ["a@b.c"]⟩)).2
        (some ⟨"u1", ["a@b.c"]⟩) =
      (ProfileResp.alreadyExists, (ensureProfile ⟨[], []⟩ (some ⟨"u1", ["a@b.c"]⟩)).2) :=
  claim_c9_ensureProfile ⟨[], []⟩ "u1" "a@b.c" (by decide) rfl

/-! ## Claim C4: subscription creation -/

/-- The 400-class (client error) responses of the create-subscription
handler. -/
def createSubRespIsClientError : CreateSubResp → Bool
  | .missingFields => true
  | .invalidPlanType => true
  | .invalidPriceId => true
  | .alreadyActive _ _ => true
  | .ok _ _ _ _ _ => false

/-- C4: when the user already has an `active` row with a future end date,
the call answers with a client error, sends nothing to the provider and
persists nothing; otherwise, for an allowed plan type with a resolvable
price, the provider is asked for a subscription with `total_count = 1` and
the listed metadata, a local row mirroring the provider's initial status
is appended, and the response carries the short checkout URL and a
callback URL embedding the provider subscription id. -/
theorem claim_c4_createSubscription
    (db : DB) (planType userId email : String) (now : Date)
    (priceOf : String → Option String) (create : ProviderCreateReq → ProviderSub)
    (origin freshId : String) (freshAt : Nat) :
    (∀ act, findActiveFuture db userId now = some act →
      createSubRespIsClientError
          (createSubscription db planType userId email now priceOf create
            origin freshId freshAt).1 = true ∧
      (createSubscription db planType userId email now priceOf create
          origin freshId freshAt).2.1 = db ∧
      (createSubscription db planType userId email now priceOf create
          origin freshId freshAt).2.2 = none) ∧
    ((planType = "week" ∨ planType = "month" ∨ planType = "year") →
      userId ≠ "" → email ≠ "" →
      ∀ pid req, priceOf planType = some pid → pid ≠ "" →
        req = ProviderCreateReq.mk pid 1 1 ⟨some userId, some planType, some email⟩ →
        findActiveFuture db userId now = none →
        createSubscription db planType userId email now priceOf create
            origin freshId freshAt =
          (CreateSubResp.ok (create req).id (create req).plan_id (create req).status
              (create req).short_url (origin ++ "/subscribe?sessionId=" ++ (create req).id),
           createSubRow db
             ⟨freshId, userId, (create req).plan_id, some (create req).id, none,
              (create req).status, planType, none, none, false, freshAt⟩,
           some req)) := by
  constructor
  · intro act hact
    simp only [createSubscription, hact]
    split_ifs with h1 h2 <;> try exact ⟨rfl, rfl, rfl⟩
    all_goals
      cases hp : priceOf planType with
      | none => exact ⟨rfl, rfl, rfl⟩
      | some pid =>
        by_cases hpid : pid = "" <;> simp [hpid, createSubRespIsClientError]
  · intro hpt huid hmail pid req hprice hpid hreq hact
    have hptne : planType ≠ "" := by
      rcases hpt with h | h | h <;> subst h <;> decide
    have h1 : ¬ (planType = "" ∨ userId = "" ∨ email = "") := by
      simp [hptne, huid, hmail]
    have h2 : ¬ ¬ (planType = "week" ∨ planType = "month" ∨ planType = "year") := by
      simp [hpt]
    subst hreq
    simp only [createSubscription, h1, if_false, h2, hprice, hpid, hact]

/-- Witness for C4: a concrete month-plan creation against a store with a
profile and no subscriptions. -/
theorem claim_c4_witness :
    createSubscription (DB.mk [⟨"u1", "a@b.c", none, false, none⟩] []) "month" "u1" "a@b.c"
        ⟨2024, 0, 1⟩ (fun t => if t = "month" then some "plan_m" else none)
        (fun r => ⟨"sub_1", r.plan_id, "created", some "https://rzp.io/x", r.total_count,
          r.notes⟩)
        "https://app" "row1" 5 =
      (CreateSubResp.ok "sub_1" "plan_m" "created" (some "https://rzp.io/x")
        "https://app/subscribe?sessionId=sub_1",
       DB.mk [⟨"u1", "a@b.c", none, false, none⟩]
         [⟨"row1", "u1", "plan_m", some "sub_1", none, "created", "month", none, none,
           false, 5⟩],
       some ⟨"plan_m", 1, 1, ⟨some "u1", some "month", some "a@b.c"⟩⟩) := by
  have h := (claim_c4_createSubscription
      (DB.mk [⟨"u1", "a@b.c", none, false, none⟩] []) "month" "u1" "a@b.c"
      ⟨2024, 0, 1⟩ (fun t => if t = "month" then some "plan_m" else none)
      (fun r => ⟨"sub_1", r.plan_id, "created", some "https://rzp.io/x", r.total_count,
        r.notes⟩)
      "https://app" "row1" 5).2
    (Or.inr (Or.inl rfl)) (by decide) (by decide) "plan_m"
    ⟨"plan_m", 1, 1, ⟨some "u1", some "month", some "a@b.c"⟩⟩ rfl (by decide) rfl rfl
  simpa [createSubRow] using h

/-! ## Claim C3: the status query's three shapes and their precedence -/

/-- A user with no rows matches no query that selects on the identity
key. -/
theorem mostRecentWhere_none_of_no_rows (db : DB) (uid : String)
    (p : Subscription → Bool) (hp : ∀ s, p s = true → (s.userId == uid) = true)
    (h : userSubs db uid = []) :
    mostRecentWhere p db.subscriptions = none := by
  have hfil : db.subscriptions.filter p = [] := by
    rw [List.filter_eq_nil_iff]
    intro s hs hps
    have hmem : s ∈ userSubs db uid := by
      simp [userSubs, List.mem_filter, hs, hp s hps]
    rw [h] at hmem
    exact absurd hmem (List.not_mem_nil s)
  simp [mostRecentWhere, hfil]

/-- C3: the status query returns exactly one of the three shapes with the
implemented precedence.  (1) A stored row with status in
{active, completed} and a future end date wins and is echoed.  (2)
Otherwise a stored pending-family row whose provider re-fetch reports
active or completed is promoted — the row becomes active with the
computed end date, the profile is activated — and the active shape is
returned.  (3) Otherwise a pending-family row whose re-fetch stays in the
pending family yields the pending shape.  (4) With no qualifying row at
all the inactive shape is returned, in particular on a user with no
subscription rows.  (5) A pending-family row whose re-fetch reports any
other status also falls through to the inactive shape. -/
theorem claim_c3_getStatus (db : DB) (uid : String) (now : Date)
    (fetch : Except String String) (huid : uid ≠ "") :
    (∀ act, activeQuery db uid now = some act →
      getStatus db uid now fetch =
        (StatusResp.activeResp act.planType act.razorpaySubscriptionId act.endDate false,
         db)) ∧
    (∀ pend st db2, activeQuery db uid now = none → pendingQuery db uid = some pend →
      fetch = .ok st → (st = "active" ∨ st = "completed") →
      updateProfile
          (updateSubById db pend.id (fun s =>
            { s with
                status := "active"
                startDate := some now
                endDate := some (calculateEndDate pend.planType now) }))
          uid (fun p =>
            { p with
                subscriptionActive := true
                subscriptionTier := some pend.planType }) = some db2 →
      getStatus db uid now fetch =
        (StatusResp.activeResp pend.planType pend.razorpaySubscriptionId none
           pend.isRecurring,
         db2)) ∧
    (∀ pend st, activeQuery db uid now = none → pendingQuery db uid = some pend →
      fetch = .ok st → (st = "created" ∨ st = "authenticated" ∨ st = "pending") →
      getStatus db uid now fetch =
        (StatusResp.pendingResp pend.razorpaySubscriptionId pend.planType, db)) ∧
    (activeQuery db uid now = none → pendingQuery db uid = none →
      getStatus db uid now fetch = (StatusResp.inactive, db)) ∧
    (userSubs db uid = [] → getStatus db uid now fetch = (StatusResp.inactive, db)) ∧
    (∀ pend st, activeQuery db uid now = none → pendingQuery db uid = some pend →
      fetch = .ok st →
      ¬ (st = "active" ∨ st = "completed") →
      ¬ (st = "created" ∨ st = "authenticated" ∨ st = "pending") →
      (getStatus db uid now fetch).1 = StatusResp.inactive) := by
  refine ⟨?_, ?_, ?_, ?_, ?_, ?_⟩
  · intro act hact
    simp [getStatus, huid, hact]
  · intro pend st db2 hact hpend hf hst hprof
    subst hf
    simp only [getStatus, huid, if_neg, hact, hpend, hst, if_true, hprof]
    simp
  · intro pend st hact hpend hf hst
    subst hf
    have hst2 : ¬ (st = "active" ∨ st = "completed") := by
      rcases hst with h | h | h <;> subst h <;> decide
    simp only [getStatus, huid, if_neg, hact, hpend, hst2, if_false, hst, if_true]
  · intro hact hpend
    simp [getStatus, huid, hact, hpend]
  · intro hsubs
    have hact : activeQuery db uid now = none := by
      apply mostRecentWhere_none_of_no_rows db uid _ ?_ hsubs
      intro s hs
      simp only [Bool.and_eq_true] at hs
      exact hs.1.1
    have hpend : pendingQuery db uid = none := by
      apply mostRecentWhere_none_of_no_rows db uid _ ?_ hsubs
      intro s hs
      simp only [Bool.and_eq_true] at hs
      exact hs.1
    simp [getStatus, huid, hact, hpend]
  · intro pend st hact hpend hf hst1 hst2
    subst hf
    simp only [getStatus, huid, if_neg, hact, hpend, hst1, if_false, hst2]

/-- Witness for C3: the spec's worked example — a single pending month row
promoted when the provider reports active, and the inactive shape on a
user with no rows. -/
theorem claim_c3_witness :
    getStatus
        (DB.mk [⟨"U", "e@x.io", none, false, none⟩]
          [⟨"r1", "U", "p1", some "s1", none, "pending", "month", none, none, false, 1⟩])
        "U" ⟨2025, 0, 15⟩ (.ok "active") =
      (StatusResp.activeResp "month" (some "s1") none false,
       DB.mk [⟨"U", "e@x.io", some "month", true, none⟩]
         [⟨"r1", "U", "p1", some "s1", none, "active", "month", some ⟨2025, 0, 15⟩,
           some ⟨2025, 1, 15⟩, false, 1⟩]) ∧
    getStatus (DB.mk [] []) "U" ⟨2025, 0, 15⟩ (.ok "active") =
      (StatusResp.inactive, DB.mk [] []) :=
  ⟨(claim_c3_getStatus
      (DB.mk [⟨"U", "e@x.io", none, false, none⟩]
        [⟨"r1", "U", "p1", some "s1", none, "pending", "month", none, none, false, 1⟩])
      "U" ⟨2025, 0, 15⟩ (.ok "active") (by decide)).2.1
    ⟨"r1", "U", "p1", some "s1", none, "pending", "month", none, none, false, 1⟩
    "active"
    (DB.mk [⟨"U", "e@x.io", some "month", true, none⟩]
      [⟨"r1", "U", "p1", some "s1", none, "active", "month", some ⟨2025, 0, 15⟩,
        some ⟨2025, 1, 15⟩, false, 1⟩])
    rfl rfl rfl (Or.inl rfl) rfl,
   (claim_c3_getStatus (DB.mk [] []) "U" ⟨2025, 0, 15⟩ (.ok "active")
      (by decide)).2.2.2.2.1 rfl⟩

/-! ## Claim C6: provider failure on the read path is swallowed -/

/-- C6: when the provider re-fetch for the pending-family row throws, the
status handler swallows the error: no 500, no record change, and the
fall-through inactive shape is returned. -/
theorem claim_c6_getStatus_error (db : DB) (uid : String) (now : Date) (e : String)
    (pend : Subscription) (huid : uid ≠ "")
    (hact : activeQuery db uid now = none)
    (hpend : pendingQuery db uid = some pend) :
    getStatus db uid now (.error e) = (StatusResp.inactive, db) := by
  simp [getStatus, huid, hact, hpend]

/-- Witness for C6: a pending row whose provider fetch throws. -/
theorem claim_c6_witness :
    getStatus
        (DB.mk [⟨"U", "e@x.io", none, false, none⟩]
          [⟨"r1", "U", "p1", some "s1", none, "pending", "month", none, none, false, 1⟩])
        "U" ⟨2025, 0, 15⟩ (.error "gateway down") =
      (StatusResp.inactive,
       DB.mk [⟨"U", "e@x.io", none, false, none⟩]
         [⟨"r1", "U", "p1", some "s1", none, "pending", "month", none, none, false, 1⟩]) :=
  claim_c6_getStatus_error
    (DB.mk [⟨"U", "e@x.io", none, false, none⟩]
      [⟨"r1", "U", "p1", some "s1", none, "pending", "month", none, none, false, 1⟩])
    "U" ⟨2025, 0, 15⟩ "gateway down"
    ⟨"r1", "U", "p1", some "s1", none, "pending", "month", none, none, false, 1⟩
    (by decide) rfl rfl

/-! ## Claim C10: an active row with a null end date is invisible -/

/-- A query returns nothing when every row fails its predicate. -/
theorem mostRecentWhere_none (p : Subscription → Bool) (l : List Subscription)
    (h : ∀ s ∈ l, ¬ p s = true) : mostRecentWhere p l = none := by
  have hfil : l.filter p = [] := List.filter_eq_nil_iff.mpr h
  simp [mostRecentWhere, hfil]

/-- Filtering by owner commutes with a row map that keeps the owner. -/
theorem filter_userId_map (l : List Subscription) (g : Subscription → Subscription)
    (uid : String) (hg : ∀ t, (g t).userId = t.userId) :
    (l.map g).filter (fun t => t.userId == uid) =
      (l.filter (fun t => t.userId == uid)).map g := by
  induction l with
  | nil => simp
  | cons a l ih =>
    simp only [List.map_cons, List.filter_cons, hg a]
    by_cases h : (a.userId == uid) = true
    · simp [h, ih]
    · simp [h, ih]

/-- C10: on a user whose single row carries a `null` end date, the
`payment.captured` handler forces the status to active while leaving the
end date `null`, and the status query then reports the inactive shape:
the active query demands a non-null future end date and the pending query
excludes status `active`. -/
theorem claim_c10_captured_null_endDate (db : DB) (uid : String) (e : WebhookEntity)
    (now : Date) (fetch : Except String String) (s : Subscription) (sid : String)
    (huid : uid ≠ "") (hesid : e.subscription_id = some sid) (hsid : sid ≠ "")
    (hsubs : userSubs db uid = [s]) (hrzp : s.razorpaySubscriptionId = some sid)
    (hend : s.endDate = none) :
    userSubs (handlePaymentCaptured db e) uid =
      [{ s with razorpayPaymentId := some e.id, status := "active" }] ∧
    getStatus (handlePaymentCaptured db e) uid now fetch =
      (StatusResp.inactive, handlePaymentCaptured db e) := by
  have hcap : handlePaymentCaptured db e =
      updateSubsByRzp db sid (fun t =>
        { t with razorpayPaymentId := some e.id, status := "active" }) := by
    simp [handlePaymentCaptured, hesid, hsid]
  set g : Subscription → Subscription := fun t =>
    if t.razorpaySubscriptionId == some sid then
      { t with razorpayPaymentId := some e.id, status := "active" }
    else t with hg_def
  have hg : ∀ t, (g t).userId = t.userId := by
    intro t
    simp only [hg_def]
    by_cases h : (t.razorpaySubscriptionId == some sid) = true <;> simp [h]
  have hmap : (handlePaymentCaptured db e).subscriptions = db.subscriptions.map g := by
    rw [hcap]
    rfl
  have husubs : userSubs (handlePaymentCaptured db e) uid =
      [{ s with razorpayPaymentId := some e.id, status := "active" }] := by
    unfold userSubs
    rw [hmap, filter_userId_map _ _ _ hg]
    have : db.subscriptions.filter (fun t => t.userId == uid) = [s] := hsubs
    rw [this]
    simp only [List.map_cons, List.map_nil, hg_def]
    rw [hrzp]
    simp
  refine ⟨husubs, ?_⟩
  have hmem_single : ∀ t, t ∈ (handlePaymentCaptured db e).subscriptions →
      (t.userId == uid) = true →
      t = { s with razorpayPaymentId := some e.id, status := "active" } := by
    intro t ht hteq
    have : t ∈ userSubs (handlePaymentCaptured db e) uid := by
      simp [userSubs, List.mem_filter, ht, hteq]
    rw [husubs] at this
    simpa using this
  have hact : activeQuery (handlePaymentCaptured db e) uid now = none := by
    apply mostRecentWhere_none
    intro t ht hp
    simp only [Bool.and_eq_true] at hp
    have hts := hmem_single t ht hp.1.1
    have : t.endDate = none := by rw [hts]; simpa using hend
    rw [this] at hp
    simp [endDateGe] at hp
  have hpend : pendingQuery (handlePaymentCaptured db e) uid = none := by
    apply mostRecentWhere_none
    intro t ht hp
    simp only [Bool.and_eq_true] at hp
    have hts := hmem_single t ht hp.1
    have : t.status = "active" := by rw [hts]
    rw [this] at hp
    simp at hp
  simp [getStatus, huid, hact, hpend]

/-- Witness for C10: a captured payment on a pending row without dates. -/
theorem claim_c10_witness :
    userSubs
        (handlePaymentCaptured
          (DB.mk [⟨"U", "e@x.io", none, false, none⟩]
            [⟨"r1", "U", "p1", some "s1", none, "pending", "month", none, none, false, 1⟩])
          ⟨"pay_1", "p1", ⟨none, none, none⟩, some "s1"⟩) "U" =
      [⟨"r1", "U", "p1", some "s1", some "pay_1", "active", "month", none, none, false, 1⟩] ∧
    getStatus
        (handlePaymentCaptured
          (DB.mk [⟨"U", "e@x.io", none, false, none⟩]
            [⟨"r1", "U", "p1", some "s1", none, "pending", "month", none, none, false, 1⟩])
          ⟨"pay_1", "p1", ⟨none, none, none⟩, some "s1"⟩) "U" ⟨2025, 0, 15⟩ (.ok "active") =
      (StatusResp.inactive,
       handlePaymentCaptured
         (DB.mk [⟨"U", "e@x.io", none, false, none⟩]
           [⟨"r1", "U", "p1", some "s1", none, "pending", "month", none, none, false, 1⟩])
         ⟨"pay_1", "p1", ⟨none, none, none⟩, some "s1"⟩) :=
  claim_c10_captured_null_endDate
    (DB.mk [⟨"U", "e@x.io", none, false, none⟩]
      [⟨"r1", "U", "p1", some "s1", none, "pending", "month", none, none, false, 1⟩])
    "U" ⟨"pay_1", "p1", ⟨none, none, none⟩, some "s1"⟩ ⟨2025, 0, 15⟩ (.ok "active")
    ⟨"r1", "U", "p1", some "s1", none, "pending", "month", none, none, false, 1⟩ "s1"
    (by decide) rfl (by decide) rfl rfl rfl

/-! ## Claim C7: upsert lemmas and idempotence of verification -/

/-- Upserting a subscription never touches the Profile table. -/
theorem upsertSubByRzp_profiles (db : DB) (rid : String)
    (upd : Subscription → Subscription) (mk : Subscription) :
    (upsertSubByRzp db rid upd mk).profiles = db.profiles := by
  by_cases h : db.subscriptions.any (fun s => s.razorpaySubscriptionId == some rid) = true <;>
    simp [upsertSubByRzp, updateSubsByRzp, h]

/-- The upsert result is its own profiles paired with its own rows. -/
theorem upsertSubByRzp_eta (db : DB) (rid : String)
    (upd : Subscription → Subscription) (mk : Subscription) :
    upsertSubByRzp db rid upd mk =
      ⟨db.profiles, (upsertSubByRzp db rid upd mk).subscriptions⟩ := by
  by_cases h : db.subscriptions.any (fun s => s.razorpaySubscriptionId == some rid) = true <;>
    simp [upsertSubByRzp, updateSubsByRzp, h]

/-- The rows produced by an upsert depend only on the stored rows. -/
theorem upsertSubByRzp_subs_congr (d d2 : DB) (rid : String)
    (upd : Subscription → Subscription) (mk : Subscription)
    (h : d.subscriptions = d2.subscriptions) :
    (upsertSubByRzp d rid upd mk).subscriptions =
      (upsertSubByRzp d2 rid upd mk).subscriptions := by
  unfold upsertSubByRzp updateSubsByRzp
  rw [h]
  by_cases hany :
      d2.subscriptions.any (fun s => s.razorpaySubscriptionId == some rid) = true <;>
    simp [hany]

/-- An upsert whose update is idempotent, fixes the created row and
preserves the key is itself idempotent. -/
theorem upsertSubByRzp_idem (db : DB) (rid : String)
    (upd : Subscription → Subscription) (mk : Subscription)
    (hupd2 : ∀ s, upd (upd s) = upd s) (hmk : upd mk = mk)
    (hmkrid : mk.razorpaySubscriptionId = some rid)
    (hpres : ∀ s, (upd s).razorpaySubscriptionId = s.razorpaySubscriptionId) :
    upsertSubByRzp (upsertSubByRzp db rid upd mk) rid upd mk =
      upsertSubByRzp db rid upd mk := by
  have hg : ∀ s,
      ((if s.razorpaySubscriptionId == some rid then upd s else s).razorpaySubscriptionId ==
        some rid) = (s.razorpaySubscriptionId == some rid) := by
    intro s
    by_cases h : (s.razorpaySubscriptionId == some rid) = true <;> simp [h, hpres]
  have hfun : ((fun s => s.razorpaySubscriptionId == some rid) ∘
      (fun s => if s.razorpaySubscriptionId == some rid then upd s else s)) =
      (fun s => s.razorpaySubscriptionId == some rid) := by
    funext s
    simpa [Function.comp] using hg s
  by_cases hany : db.subscriptions.any (fun s => s.razorpaySubscriptionId == some rid) = true
  · have e1 : upsertSubByRzp db rid upd mk =
        { db with
            subscriptions := db.subscriptions.map (fun s =>
              if s.razorpaySubscriptionId == some rid then upd s else s) } := by
      unfold upsertSubByRzp
      rw [if_pos hany]
      rfl
    rw [e1]
    have hany2 : ((db.subscriptions.map (fun s =>
        if s.razorpaySubscriptionId == some rid then upd s else s)).any
          (fun s => s.razorpaySubscriptionId == some rid)) = true := by
      rw [List.any_map, hfun]
      exact hany
    unfold upsertSubByRzp
    rw [if_pos hany2]
    unfold updateSubsByRzp
    simp only
    congr 1
    rw [List.map_map]
    apply List.map_congr_left
    intro s _
    simp only [Function.comp]
    by_cases h : (s.razorpaySubscriptionId == some rid) = true
    · simp only [h, if_true]
      have h2 : ((upd s).razorpaySubscriptionId == some rid) = true := by
        rw [hpres]; exact h
      simp [h2, hupd2]
    · simp [h]
  · have hmkc : (mk.razorpaySubscriptionId == some rid) = true := by
      simp [hmkrid]
    have e1 : upsertSubByRzp db rid upd mk =
        { db with subscriptions := db.subscriptions ++ [mk] } := by
      unfold upsertSubByRzp
      rw [if_neg hany]
    rw [e1]
    have hany2 : ((db.subscriptions ++ [mk]).any
        (fun s => s.razorpaySubscriptionId == some rid)) = true := by
      rw [List.any_append]
      simp [hmkc]
    unfold upsertSubByRzp
    rw [if_pos hany2]
    unfold updateSubsByRzp
    simp only
    congr 1
    rw [List.map_append]
    have hnone : ∀ s ∈ db.subscriptions, ¬ (s.razorpaySubscriptionId == some rid) = true := by
      intro s hs h
      exact hany (List.any_eq_true.mpr ⟨s, hs, h⟩)
    have h1 : db.subscriptions.map (fun s =>
        if s.razorpaySubscriptionId == some rid then upd s else s) = db.subscriptions := by
      have h2 := List.map_congr_left (l := db.subscriptions)
        (f := fun s => if s.razorpaySubscriptionId == some rid then upd s else s)
        (g := id) (fun s hs => by simp [hnone s hs])
      simpa using h2
    rw [h1]
    simp [hmkc, hmk]

/-- After the update branch of an upsert, the key lookup finds an updated
row. -/
theorem find_map_upsert_aux (rid : String) (upd : Subscription → Subscription)
    (hpres : ∀ s, (upd s).razorpaySubscriptionId = s.razorpaySubscriptionId) :
    ∀ l : List Subscription,
      l.any (fun s => s.razorpaySubscriptionId == some rid) = true →
      ∃ s, ((l.map (fun s =>
          if s.razorpaySubscriptionId == some rid then upd s else s)).find?
        (fun t => t.razorpaySubscriptionId == some rid)) = some (upd s) := by
  intro l
  induction l with
  | nil => intro h; simp at h
  | cons a l ih =>
    intro h
    by_cases ha : (a.razorpaySubscriptionId == some rid) = true
    · refine ⟨a, ?_⟩
      simp only [List.map_cons, ha, if_true]
      apply List.find?_cons_of_pos
      rw [hpres]
      exact ha
    · simp only [List.map_cons, ha, if_false]
      rw [List.find?_cons_of_neg _ (by simpa using ha)]
      apply ih
      simp only [List.any_cons, ha, Bool.false_or] at h
      exact h

/-- The key lookup after an upsert finds either the created row or an
updated one. -/
theorem findSubByRzp_upsert (db : DB) (rid : String)
    (upd : Subscription → Subscription) (mk : Subscription)
    (hmkrid : mk.razorpaySubscriptionId = some rid)
    (hpres : ∀ s, (upd s).razorpaySubscriptionId = s.razorpaySubscriptionId) :
    ∃ t, findSubByRzp (upsertSubByRzp db rid upd mk) rid = some t ∧
      (t = mk ∨ ∃ s, t = upd s) := by
  by_cases hany : db.subscriptions.any (fun s => s.razorpaySubscriptionId == some rid) = true
  · obtain ⟨s, hs⟩ := find_map_upsert_aux rid upd hpres db.subscriptions hany
    refine ⟨upd s, ?_, Or.inr ⟨s, rfl⟩⟩
    unfold findSubByRzp upsertSubByRzp
    rw [if_pos hany]
    exact hs
  · refine ⟨mk, ?_, Or.inl rfl⟩
    unfold findSubByRzp upsertSubByRzp
    rw [if_neg hany]
    show (db.subscriptions ++ [mk]).find? (fun t => t.razorpaySubscriptionId == some rid) =
      some mk
    rw [List.find?_append]
    have hnonefind : db.subscriptions.find?
        (fun t => t.razorpaySubscriptionId == some rid) = none := by
      rw [List.find?_eq_none]
      intro s hs hc
      exact hany (List.any_eq_true.mpr ⟨s, hs, hc⟩)
    rw [hnonefind]
    simp [hmkrid]

/-- A successful profile update rewrites only the Profile table. -/
theorem updateProfile_some_subs (d : DB) (uid : String) (f : Profile → Profile) (d' : DB)
    (h : updateProfile d uid f = some d') : d'.subscriptions = d.subscriptions := by
  unfold updateProfile at h
  by_cases hany : d.profiles.any (fun p => p.userId == uid) = true
  · rw [if_pos hany] at h
    injection h with h
    subst h
    rfl
  · rw [if_neg hany] at h
    cases h

/-- A profile update with a constant-valued, key-preserving data record is
idempotent. -/
theorem updateProfile_idem (d : DB) (uid : String) (f : Profile → Profile)
    (hf2 : ∀ p, f (f p) = f p) (hfu : ∀ p, (f p).userId = p.userId) (d' : DB)
    (h : updateProfile d uid f = some d') :
    updateProfile d' uid f = some d' := by
  unfold updateProfile at h
  by_cases hany : d.profiles.any (fun p => p.userId == uid) = true
  · rw [if_pos hany] at h
    injection h with h
    subst h
    have hfun : ((fun p => p.userId == uid) ∘
        (fun p => if p.userId == uid then f p else p)) = (fun p => p.userId == uid) := by
      funext p
      by_cases hp : (p.userId == uid) = true <;> simp [Function.comp, hp, hfu]
    have hany2 : ((d.profiles.map (fun p => if p.userId == uid then f p else p)).any
        (fun p => p.userId == uid)) = true := by
      rw [List.any_map, hfun]
      exact hany
    show updateProfile
        ⟨d.profiles.map (fun p => if p.userId == uid then f p else p), d.subscriptions⟩
        uid f = _
    unfold updateProfile
    rw [if_pos hany2]
    congr 1
    simp only
    congr 1
    rw [List.map_map]
    apply List.map_congr_left
    intro p _
    simp only [Function.comp]
    by_cases hp : (p.userId == uid) = true
    · simp only [hp, if_true]
      have hp2 : ((f p).userId == uid) = true := by rw [hfu]; exact hp
      simp [hp2, hf2]
    · simp [hp]
  · rw [if_neg hany] at h
    cases h

/-- C7: applying the provider status `active` through the redirect
verification path twice leaves exactly the state of one application: the
Subscription table and the Profile table are unchanged by the second
application. -/
theorem claim_c7_verification_idempotent (db : DB) (sid : String) (sub : ProviderSub)
    (now : Date) (fid : String) (fat : Nat)
    (hid : sub.id = sid) (hst : sub.status = "active") :
    (verifyPaymentSession (verifyPaymentSession db sid (.ok (some sub)) now fid fat).2
        sid (.ok (some sub)) now fid fat).2 =
      (verifyPaymentSession db sid (.ok (some sub)) now fid fat).2 := by
  cases hnu : sub.notes.userId with
  | none => simp [verifyPaymentSession, hnu]
  | some u =>
    by_cases hu : u = ""
    · simp [verifyPaymentSession, hnu, hu]
    · have hc1 : ¬ (sub.status = "created" ∨ sub.status = "authenticated") := by
        rw [hst]; decide
      have hc2 : ¬ sub.status = "cancelled" := by
        rw [hst]; decide
      by_cases hdbsub : ((findSubByRzp db sid).all (fun r => r.status != "cancelled")) = true
      · -- the promotion branch runs
        have erun : ∀ d : DB,
            ((findSubByRzp d sid).all (fun r => r.status != "cancelled")) = true →
            verifyPaymentSession d sid (.ok (some sub)) now fid fat =
              (match updateProfile
                  (upsertSubByRzp d sid (verifyUpd (jsStrOr sub.notes.planType "month") now)
                    (verifyMk fid u sub (jsStrOr sub.notes.planType "month") now fat))
                  u (verifyProf (jsStrOr sub.notes.planType "month") sub.id) with
               | some db2 => (VerifyResp.activated, db2)
               | none => (VerifyResp.serverError "profile record not found",
                   upsertSubByRzp d sid (verifyUpd (jsStrOr sub.notes.planType "month") now)
                     (verifyMk fid u sub (jsStrOr sub.notes.planType "month") now fat))) := by
          intro d hall
          simp only [verifyPaymentSession, hnu]
          rw [if_neg hu, if_neg hc1, if_neg hc2, if_pos ⟨Or.inl hst, hall⟩]
        have hupd2 : ∀ s, verifyUpd (jsStrOr sub.notes.planType "month") now
            (verifyUpd (jsStrOr sub.notes.planType "month") now s) =
            verifyUpd (jsStrOr sub.notes.planType "month") now s := fun s => rfl
        have hmk : verifyUpd (jsStrOr sub.notes.planType "month") now
            (verifyMk fid u sub (jsStrOr sub.notes.planType "month") now fat) =
            verifyMk fid u sub (jsStrOr sub.notes.planType "month") now fat := rfl
        have hmkrid : (verifyMk fid u sub (jsStrOr sub.notes.planType "month") now
            fat).razorpaySubscriptionId = some sid := by
          simp [verifyMk, hid]
        have hpres : ∀ s, (verifyUpd (jsStrOr sub.notes.planType "month") now
            s).razorpaySubscriptionId = s.razorpaySubscriptionId := fun s => rfl
        have hf2 : ∀ p, verifyProf (jsStrOr sub.notes.planType "month") sub.id
            (verifyProf (jsStrOr sub.notes.planType "month") sub.id p) =
            verifyProf (jsStrOr sub.notes.planType "month") sub.id p := fun p => rfl
        have hfu : ∀ p, (verifyProf (jsStrOr sub.notes.planType "month") sub.id
            p).userId = p.userId := fun p => rfl
        obtain ⟨t, htfind, htor⟩ := findSubByRzp_upsert db sid
          (verifyUpd (jsStrOr sub.notes.planType "month") now)
          (verifyMk fid u sub (jsStrOr sub.notes.planType "month") now fat) hmkrid hpres
        have htst : t.status = "active" := by
          rcases htor with h | ⟨s, h⟩ <;> subst h <;> rfl
        have hidem := upsertSubByRzp_idem db sid
          (verifyUpd (jsStrOr sub.notes.planType "month") now)
          (verifyMk fid u sub (jsStrOr sub.notes.planType "month") now fat)
          hupd2 hmk hmkrid hpres
        rw [erun db hdbsub]
        cases hup : updateProfile
            (upsertSubByRzp db sid (verifyUpd (jsStrOr sub.notes.planType "month") now)
              (verifyMk fid u sub (jsStrOr sub.notes.planType "month") now fat))
            u (verifyProf (jsStrOr sub.notes.planType "month") sub.id) with
        | some db2 =>
          simp only [hup]
          have hsubs2 : db2.subscriptions =
              (upsertSubByRzp db sid (verifyUpd (jsStrOr sub.notes.planType "month") now)
                (verifyMk fid u sub (jsStrOr sub.notes.planType "month") now
                  fat)).subscriptions :=
            updateProfile_some_subs _ _ _ _ hup
          have hfind2 : findSubByRzp db2 sid = some t := by
            unfold findSubByRzp
            rw [hsubs2]
            exact htfind
          have hall2 : ((findSubByRzp db2 sid).all (fun r => r.status != "cancelled")) =
              true := by
            rw [hfind2]
            simp [Option.all, htst]
          rw [erun db2 hall2]
          have hTdb2 : upsertSubByRzp db2 sid
              (verifyUpd (jsStrOr sub.notes.planType "month") now)
              (verifyMk fid u sub (jsStrOr sub.notes.planType "month") now fat) = db2 := by
            have hsc := upsertSubByRzp_subs_congr db2
              (upsertSubByRzp db sid (verifyUpd (jsStrOr sub.notes.planType "month") now)
                (verifyMk fid u sub (jsStrOr sub.notes.planType "month") now fat))
              sid (verifyUpd (jsStrOr sub.notes.planType "month") now)
              (verifyMk fid u sub (jsStrOr sub.notes.planType "month") now fat) hsubs2
            have h1 : (upsertSubByRzp db2 sid
                (verifyUpd (jsStrOr sub.notes.planType "month") now)
                (verifyMk fid u sub (jsStrOr sub.notes.planType "month") now
                  fat)).subscriptions = db2.subscriptions := by
              rw [hsc, hidem, ← hsubs2]
            have h2 := upsertSubByRzp_eta db2 sid
              (verifyUpd (jsStrOr sub.notes.planType "month") now)
              (verifyMk fid u sub (jsStrOr sub.notes.planType "month") now fat)
            rw [h2, h1]
          rw [hTdb2]
          rw [updateProfile_idem _ u _ hf2 hfu db2 hup]
        | none =>
          simp only [hup]
          have hall2 : ((findSubByRzp
              (upsertSubByRzp db sid (verifyUpd (jsStrOr sub.notes.planType "month") now)
                (verifyMk fid u sub (jsStrOr sub.notes.planType "month") now fat))
              sid).all (fun r => r.status != "cancelled")) = true := by
            rw [htfind]
            simp [Option.all, htst]
          rw [erun _ hall2]
          rw [hidem, hup]
      · -- the not-active / locally-cancelled fall-through leaves the state alone
        have e1 : verifyPaymentSession db sid (.ok (some sub)) now fid fat =
            (VerifyResp.subNotActive sub.status, db) := by
          simp only [verifyPaymentSession, hnu]
          rw [if_neg hu, if_neg hc1, if_neg hc2, if_neg (by
            intro hand
            exact hdbsub hand.2)]
        rw [e1]
        rw [e1]

/-- Witness for C7 at a concrete active provider subscription. -/
theorem claim_c7_witness :
    (verifyPaymentSession
        (verifyPaymentSession (DB.mk [⟨"U", "e@x.io", none, false, none⟩] []) "s1"
          (.ok (some ⟨"s1", "p1", "active", some "url", 1,
            ⟨some "U", some "month", some "e@x.io"⟩⟩)) ⟨2025, 0, 15⟩ "r1" 2).2
        "s1"
        (.ok (some ⟨"s1", "p1", "active", some "url", 1,
          ⟨some "U", some "month", some "e@x.io"⟩⟩)) ⟨2025, 0, 15⟩ "r1" 2).2 =
      (verifyPaymentSession (DB.mk [⟨"U", "e@x.io", none, false, none⟩] []) "s1"
        (.ok (some ⟨"s1", "p1", "active", some "url", 1,
          ⟨some "U", some "month", some "e@x.io"⟩⟩)) ⟨2025, 0, 15⟩ "r1" 2).2 :=
  claim_c7_verification_idempotent (DB.mk [⟨"U", "e@x.io", none, false, none⟩] []) "s1"
    ⟨"s1", "p1", "active", some "url", 1, ⟨some "U", some "month", some "e@x.io"⟩⟩
    ⟨2025, 0, 15⟩ "r1" 2 rfl rfl

/-! ## Claim C2: webhook signature verification -/

/-- HTTP status of each verify-payment response, as set in the source
(`{ status: … }` options; responses without the option are 200). -/
def verifyRespStatus : VerifyResp → Nat
  | .subNotFound => 404
  | .noUserId => 400
  | .paymentPending _ => 200
  | .paymentNotCompleted _ => 200
  | .activated => 200
  | .subNotActive _ => 200
  | .invalidSignature => 400
  | .webhookVerified => 200
  | .serverError _ => 500

/-- HTTP status of each webhook-receiver response. -/
def webhookRespStatus : WebhookResp → Nat
  | .unauthorized => 401
  | .received => 200
  | .processingError _ => 500

/-- Counterexample to C2 as stated: a verify-payment webhook-flow request
whose supplied signature differs from the HMAC of any raw body (the
modelled HMAC always emits `"sec#…"`, the signature is `"BAD"`) is
rejected with HTTP 400, not an unauthorized 401 — and its signature is
carried in the JSON body, compared against the HMAC of
`"<payment_id>|<subscription_id>"` rather than of the raw body. -/
theorem claim_c2_counterexample :
    verifyRespStatus
        (verifyPaymentWebhook (DB.mk [] []) "pay" "s1" "BAD" "U" "sec"
          (fun secret msg => secret ++ "#" ++ msg)
          (.ok ⟨"s1", "p1", "active", none, 1, ⟨some "U", some "month", none⟩⟩)
          ⟨2025, 0, 15⟩ "r1" 1).1 = 400 ∧
    (400 : Nat) ≠ 401 ∧
    "BAD" ≠ (fun secret msg => secret ++ "#" ++ msg) "sec" "rawbody" := by
  refine ⟨by rfl, by decide, by decide⟩

/-- C2 (amended): the razorpay-webhook receiver rejects a request whose
header signature differs from HMAC-SHA256 of the raw body with 401 and no
persistence mutation, independently of the parser; the verify-payment
webhook flow compares the body-supplied signature against HMAC-SHA256 of
`"<payment_id>|<subscription_id>"` and rejects a mismatch with 400 and no
persistence mutation. -/
theorem claim_c2_signature_rejection :
    (∀ (db : DB) (body sig secret : String) (hmac : String → String → String)
        (parse : String → Option WebhookEvent) (now : Date) (fid : String) (fat : Nat),
      hmac secret body ≠ sig →
      razorpayWebhook db body sig secret hmac parse now fid fat =
        (WebhookResp.unauthorized, db)) ∧
    (∀ (db : DB) (pid subid sig uid secret : String) (hmac : String → String → String)
        (fetch : Except String ProviderSub) (now : Date) (fid : String) (fat : Nat),
      hmac secret (pid ++ "|" ++ subid) ≠ sig →
      verifyPaymentWebhook db pid subid sig uid secret hmac fetch now fid fat =
        (VerifyResp.invalidSignature, db)) ∧
    webhookRespStatus WebhookResp.unauthorized = 401 ∧
    verifyRespStatus VerifyResp.invalidSignature = 400 := by
  refine ⟨?_, ?_, rfl, rfl⟩
  · intro db body sig secret hmac parse now fid fat h
    simp [razorpayWebhook, h]
  · intro db pid subid sig uid secret hmac fetch now fid fat h
    simp [verifyPaymentWebhook, h]

/-- Witness for the amended C2 at concrete mismatching signatures. -/
theorem claim_c2_witness :
    razorpayWebhook (DB.mk [] []) "rawbody" "WRONG" "sec"
        (fun secret msg => secret ++ "#" ++ msg) (fun _ => none) ⟨2025, 0, 15⟩ "r1" 1 =
      (WebhookResp.unauthorized, DB.mk [] []) ∧
    verifyPaymentWebhook (DB.mk [] []) "pay" "s1" "WRONG" "U" "sec"
        (fun secret msg => secret ++ "#" ++ msg)
        (.ok ⟨"s1", "p1", "active", none, 1, ⟨some "U", some "month", none⟩⟩)
        ⟨2025, 0, 15⟩ "r1" 1 =
      (VerifyResp.invalidSignature, DB.mk [] []) :=
  ⟨claim_c2_signature_rejection.1 (DB.mk [] []) "rawbody" "WRONG" "sec"
      (fun secret msg => secret ++ "#" ++ msg) (fun _ => none) ⟨2025, 0, 15⟩ "r1" 1
      (by decide),
   claim_c2_signature_rejection.2.1 (DB.mk [] []) "pay" "s1" "WRONG" "U" "sec"
      (fun secret msg => secret ++ "#" ++ msg)
      (.ok ⟨"s1", "p1", "active", none, 1, ⟨some "U", some "month", none⟩⟩)
      ⟨2025, 0, 15⟩ "r1" 1 (by decide)⟩

/-! ## Claim C5: resuming payment -/

/-- The 500 error responses of the resume handler. -/
def resumeRespIsError : ResumeResp → Bool
  | .serverError _ => true
  | _ => false

/-- C5: on an owned subscription, (1) provider status `cancelled` or
`expired` makes the handler create a brand-new provider subscription
carrying the original plan, billing count and metadata, persist a new
local row for it and return its checkout URL; (2) a pending-family status
returns the existing checkout URL and creates nothing; (3) any other
non-active status produces the user-visible "cannot resume" message
response, not an error. -/
theorem claim_c5_resumePayment (db : DB) (subscriptionId userId : String)
    (record : Subscription) (sub : ProviderSub)
    (create : ProviderCreateReq → ProviderSub) (origin fid : String) (fat : Nat)
    (hsid : subscriptionId ≠ "") (huid : userId ≠ "")
    (hrec : db.subscriptions.find? (fun s =>
      s.razorpaySubscriptionId == some subscriptionId && s.userId == userId) = some record)
    (hown : sub.notes.userId = some userId) :
    ((sub.status = "cancelled" ∨ sub.status = "expired") →
      ∀ req, req = ProviderCreateReq.mk sub.plan_id sub.total_count 1
          ⟨some userId, some (jsStrOr sub.notes.planType "month"),
           some (jsStrOr sub.notes.email "")⟩ →
        resumePayment db subscriptionId userId (.ok (some sub)) create origin fid fat =
          (ResumeResp.newSubCreated ((create req).short_url.getD "")
             (origin ++ "/subscribe?sessionId=" ++ (create req).id) (create req).id,
           createSubRow db
             ⟨fid, userId, sub.plan_id, some (create req).id, none, (create req).status,
              jsStrOr sub.notes.planType "month", none, none,
              ((create req).total_count > 1 || (create req).total_count == 0), fat⟩,
           some req)) ∧
    ((sub.status = "created" ∨ sub.status = "authenticated" ∨ sub.status = "pending") →
      resumePayment db subscriptionId userId (.ok (some sub)) create origin fid fat =
        (ResumeResp.resumeUrl (sub.short_url.getD "")
           (origin ++ "/subscribe?sessionId=" ++ sub.id),
         db, none)) ∧
    (sub.status ≠ "active" → sub.status ≠ "cancelled" → sub.status ≠ "expired" →
      sub.status ≠ "created" → sub.status ≠ "authenticated" → sub.status ≠ "pending" →
      resumePayment db subscriptionId userId (.ok (some sub)) create origin fid fat =
        (ResumeResp.cannotResume sub.status, db, none) ∧
      resumeRespIsError (ResumeResp.cannotResume sub.status) = false) := by
  have hempty : ¬ (subscriptionId = "" ∨ userId = "") := by simp [hsid, huid]
  have hownok : ¬ (sub.notes.userId ≠ some userId) := by
    rw [hown]
    exact fun h => h rfl
  refine ⟨?_, ?_, ?_⟩
  · intro hA req hreq
    have hna : ¬ sub.status = "active" := by
      rcases hA with h | h <;> rw [h] <;> decide
    subst hreq
    simp only [resumePayment, hempty, if_false, hrec, hownok, hna, hA, if_true]
  · intro hB
    have hna : ¬ sub.status = "active" := by
      rcases hB with h | h | h <;> rw [h] <;> decide
    have hnc : ¬ (sub.status = "cancelled" ∨ sub.status = "expired") := by
      rcases hB with h | h | h <;> rw [h] <;> decide
    simp only [resumePayment, hempty, if_false, hrec, hownok, hna, hnc, hB, if_true]
  · intro h1 h2 h3 h4 h5 h6
    have hnc : ¬ (sub.status = "cancelled" ∨ sub.status = "expired") := by
      simp [h2, h3]
    have hnp : ¬ (sub.status = "created" ∨ sub.status = "authenticated" ∨
        sub.status = "pending") := by
      simp [h4, h5, h6]
    refine ⟨?_, rfl⟩
    simp only [resumePayment, hempty, if_false, hrec, hownok, h1, hnc, hnp]

/-- Witness for C5: resuming a cancelled subscription creates a fresh one
with the same plan and metadata. -/
theorem claim_c5_witness :
    resumePayment
        (DB.mk [⟨"U", "e@x.io", none, false, none⟩]
          [⟨"r1", "U", "p1", some "s1", none, "cancelled", "month", none, none, false, 1⟩])
        "s1" "U"
        (.ok (some ⟨"s1", "p1", "cancelled", some "oldurl", 1,
          ⟨some "U", some "month", some "e@x.io"⟩⟩))
        (fun r => ⟨"s2", r.plan_id, "created", some "newurl", r.total_count, r.notes⟩)
        "https://app" "r2" 9 =
      (ResumeResp.newSubCreated "newurl" "https://app/subscribe?sessionId=s2" "s2",
       DB.mk [⟨"U", "e@x.io", none, false, none⟩]
         [⟨"r1", "U", "p1", some "s1", none, "cancelled", "month", none, none, false, 1⟩,
          ⟨"r2", "U", "p1", some "s2", none, "created", "month", none, none, false, 9⟩],
       some ⟨"p1", 1, 1, ⟨some "U", some "month", some "e@x.io"⟩⟩) := by
  have h := (claim_c5_resumePayment
      (DB.mk [⟨"U", "e@x.io", none, false, none⟩]
        [⟨"r1", "U", "p1", some "s1", none, "cancelled", "month", none, none, false, 1⟩])
      "s1" "U"
      ⟨"r1", "U", "p1", some "s1", none, "cancelled", "month", none, none, false, 1⟩
      ⟨"s1", "p1", "cancelled", some "oldurl", 1, ⟨some "U", some "month", some "e@x.io"⟩⟩
      (fun r => ⟨"s2", r.plan_id, "created", some "newurl", r.total_count, r.notes⟩)
      "https://app" "r2" 9 (by decide) (by decide) rfl rfl).1
    (Or.inl rfl) ⟨"p1", 1, 1, ⟨some "U", some "month", some "e@x.io"⟩⟩ rfl
  simpa [createSubRow] using h

/-! ## Claim C1: cancellation of an already-completed subscription -/

/-- C1 divergence, evaluated on the code: when the provider fetch reports
`completed`, the handler answers with the success message "Subscription is
completed. Your access will remain until the end date." while nevertheless
setting the Profile's `subscriptionActive` to `false` and clearing the
tier and the external reference — the same deactivation a normal
cancellation performs.  Only the branch reached when the provider *cancel
call* errors with an already-finalised message marks the row `cancelled`
and leaves the Profile untouched. -/
theorem claim_c1_completed_cancel_deactivates_profile :
    cancelSubscription
        (DB.mk [⟨"U", "e@x.io", some "month", true, some "s1"⟩]
          [⟨"r1", "U", "p1", some "s1", none, "completed", "month", some ⟨2025, 0, 1⟩,
            some ⟨2025, 1, 1⟩, false, 1⟩])
        "s1" "U" (.ok "completed") (.ok ()) =
      (CancelResp.completedKeepAccess,
       DB.mk [⟨"U", "e@x.io", none, false, none⟩]
         [⟨"r1", "U", "p1", some "s1", none, "cancelled", "month", some ⟨2025, 0, 1⟩,
           some ⟨2025, 1, 1⟩, false, 1⟩]) ∧
    cancelSubscription
        (DB.mk [⟨"U", "e@x.io", some "month", true, some "s1"⟩]
          [⟨"r1", "U", "p1", some "s1", none, "completed", "month", some ⟨2025, 0, 1⟩,
            some ⟨2025, 1, 1⟩, false, 1⟩])
        "s1" "U" (.error "fetch failed") (.error "subscription already completed") =
      (CancelResp.completedKeepAccess,
       DB.mk [⟨"U", "e@x.io", some "month", true, some "s1"⟩]
         [⟨"r1", "U", "p1", some "s1", none, "cancelled", "month", some ⟨2025, 0, 1⟩,
           some ⟨2025, 1, 1⟩, false, 1⟩]) := by
  constructor <;> rfl
